import Mathlib

/-!
Verification of the Somnium frontend's client-side session-consistency
subsystem: the persisted auth store (Credential Cache), the CSRF token
broker, the tRPC `validateSession` procedure, the session validator hook,
the route guard, and the SSE hook.  Each definition is a shallow embedding
of the corresponding TypeScript in `somnium-frontend/src`.
-/

namespace Somnium

/-! ## Data model (`lib/validations/auth.ts`) -/

/-- `userRoleSchema = z.enum(["nurse", "physician", "admin", "ecmo_specialist"])`. -/
inductive UserRole
  | nurse
  | physician
  | admin
  | ecmoSpecialist
deriving DecidableEq, Repr

/-- `userSchema`: id, email, full_name, role, department (nullable),
is_active, created_at. -/
structure User where
  id : String
  email : String
  fullName : String
  role : UserRole
  department : Option String
  isActive : Bool
  createdAt : String
deriving DecidableEq, Repr

/-- `ROLE_SCOPES : Record<UserRole, string[]>` from `lib/validations/auth.ts`. -/
def ROLE_SCOPES : UserRole → List String
  | .nurse => ["read:patients", "write:vitals", "write:labs"]
  | .physician =>
      ["read:patients", "write:patients", "write:vitals", "write:labs",
       "read:predictions"]
  | .ecmoSpecialist =>
      ["read:patients", "write:patients", "write:vitals", "write:labs",
       "read:predictions"]
  | .admin =>
      ["read:patients", "write:patients", "write:vitals", "write:labs",
       "read:predictions", "manage:users"]

/-- `hasScope(role, scope)` from `lib/validations/auth.ts`:
`ROLE_SCOPES[role]?.includes(scope) ?? false` (the record is total over the
enum, so the fallback never fires). -/
def hasScopeRole (role : UserRole) (scope : String) : Bool :=
  (ROLE_SCOPES role).contains scope

/-! ## Credential Cache (`stores/auth-store.ts`)

The `AuthState` interface of the store that is in the repository.  The
TypeScript interface declares `user`, `token`, `refreshToken`,
`isAuthenticated`, `isLoading`, `_hasHydrated` and `rememberMe`.  It
declares **no** `_lastAuthTime` field; callers that read `_lastAuthTime`
from this store observe `undefined`.  We model that absent property as an
`Option Nat` that is `none` initially and that no store action ever
assigns, which is exactly the value every read of the JS object yields.
The `token`/`refreshToken` parameters of `setAuth` are typed `string` in
the interface, but the live call sites (`login-form.tsx`,
`use-session-restore.ts`) invoke `setAuth(user)` with the token arguments
omitted, so at runtime they range over `string | undefined`; we model them
as `Option String`. -/
structure AuthState where
  user : Option User
  token : Option String
  refreshToken : Option String
  isAuthenticated : Bool
  isLoading : Bool
  hasHydrated : Bool
  rememberMe : Bool
  lastAuthTime : Option Nat
deriving DecidableEq, Repr

/-- The store's initial state (`create` callback in `auth-store.ts`). -/
def initialAuthState : AuthState :=
  { user := none, token := none, refreshToken := none,
    isAuthenticated := false, isLoading := true, hasHydrated := false,
    rememberMe := false, lastAuthTime := none }

/-- `setAuth(user, token, refreshToken, rememberMe = false)`: one `set`
call assigning `user`, `token`, `refreshToken`, `isAuthenticated = true`,
`isLoading = false`, `rememberMe`.  Nothing else is touched; in
particular no `_lastAuthTime` is written (the interface has no such
field). -/
def setAuth (s : AuthState) (user : User) (token refreshToken : Option String)
    (rememberMe : Bool := false) : AuthState :=
  { s with user := some user, token := token, refreshToken := refreshToken,
           isAuthenticated := true, isLoading := false,
           rememberMe := rememberMe }

/-- `logout()`: one `set` call clearing `user`, `token`, `refreshToken`,
`isAuthenticated`, `isLoading`, `rememberMe`. -/
def logout (s : AuthState) : AuthState :=
  { s with user := none, token := none, refreshToken := none,
           isAuthenticated := false, isLoading := false,
           rememberMe := false }

/-- `setLoading(loading)`. -/
def setLoading (s : AuthState) (loading : Bool) : AuthState :=
  { s with isLoading := loading }

/-- `setHasHydrated(hydrated)`: sets `_hasHydrated` and clears
`isLoading`. -/
def setHasHydrated (s : AuthState) (hydrated : Bool) : AuthState :=
  { s with hasHydrated := hydrated, isLoading := false }

/-- The store's `hasScope(scope)`: `false` when `user` is null, else a
lookup in `ROLE_SCOPES` keyed by the user's role. -/
def storeHasScope (user : Option User) (scope : String) : Bool :=
  match user with
  | none => false
  | some u => hasScopeRole u.role scope

/-- `hasScope` as exposed on the store state. -/
def AuthState.hasScope (s : AuthState) (scope : String) : Bool :=
  storeHasScope s.user scope

/-! ## Persistence (`persist` middleware configuration in `auth-store.ts`) -/

/-- The shape written to `localStorage` under the key `somnium-auth`:
exactly the fields selected by `partialize`. -/
structure PersistedAuth where
  user : Option User
  token : Option String
  refreshToken : Option String
  isAuthenticated : Bool
  rememberMe : Bool
deriving DecidableEq, Repr

/-- `partialize: (state) => ({ user, token, refreshToken, isAuthenticated,
rememberMe })` from `auth-store.ts`. -/
def partialize (s : AuthState) : PersistedAuth :=
  { user := s.user, token := s.token, refreshToken := s.refreshToken,
    isAuthenticated := s.isAuthenticated, rememberMe := s.rememberMe }

/-- A store together with its persisted `localStorage` entry.  `storage =
none` models the entry being absent from `localStorage`. -/
structure PersistStore where
  state : AuthState
  storage : Option PersistedAuth
deriving DecidableEq, Repr

/-- The zustand `persist` middleware: every `set` call re-serialises the
`partialize` projection of the new state into the storage entry.  No store
action removes the entry. -/
def persistSet (st : PersistStore) (f : AuthState → AuthState) : PersistStore :=
  let s := f st.state
  { state := s, storage := some (partialize s) }

/-- `setAuth` observed through the persistence middleware. -/
def storeSetAuth (st : PersistStore) (user : User)
    (token refreshToken : Option String) (rememberMe : Bool) : PersistStore :=
  persistSet st (fun s => setAuth s user token refreshToken rememberMe)

/-- `logout` observed through the persistence middleware. -/
def storeLogout (st : PersistStore) : PersistStore :=
  persistSet st logout

/-- `logout()` called `n` times in sequence. -/
def iterLogout : Nat → PersistStore → PersistStore
  | 0, st => st
  | n + 1, st => iterLogout n (storeLogout st)

/-- A concrete user for evaluation. -/
def demoUser : User :=
  { id := "8c1f6a2e-0000-4000-8000-000000000001",
    email := "nurse@hospital.com", fullName := "Sarah Johnson",
    role := .nurse, department := some "ICU", isActive := true,
    createdAt := "2024-01-01T00:00:00Z" }

/-! ## `validateSession` (`server/routers/auth.ts`, cookie-session router)

The procedure forwards the client's `cookie` header to the backend
`GET /auth/me`.  We model the backend's possible behaviours as an oracle
value so the procedure stays a pure function. -/

/-- Outcome of the `fetch` to the backend `/auth/me`. -/
inductive BackendResult
  | networkError
  | httpError (status : Nat)
  | ok (user : User)
  | okMalformed
deriving DecidableEq, Repr

/-- The `{ user: User | null }` shape the procedure returns. -/
structure SessionAnswer where
  user : Option User
deriving DecidableEq, Repr

/-- `validateSession`: `ctx.headers.get("cookie") || ""`; an absent or
empty cookie header short-circuits to `{ user: null }` with no backend
call.  Otherwise one request is issued: a non-2xx status returns
`{ user: null }`; a thrown error (network failure or a
`userSchema.parse` failure on the 2xx body) is caught and also returns
`{ user: null }`; only a 2xx body parsing as a user returns
`{ user }`.  The second component counts requests issued to `/auth/me`. -/
def validateSession (cookieHeader : Option String) (backend : BackendResult) :
    SessionAnswer × Nat :=
  let cookie := cookieHeader.getD ""
  if cookie = "" then ({ user := none }, 0)
  else
    match backend with
    | .httpError _ => ({ user := none }, 1)
    | .ok u => ({ user := some u }, 1)
    | .networkError => ({ user := none }, 1)
    | .okMalformed => ({ user := none }, 1)

/-! ## Session validator hook (`hooks/use-session-restore.ts`,
`useSessionValidator`, the grace-period variant with
`GRACE_PERIOD_MS = 10000`) -/

def GRACE_PERIOD_MS : Nat := 10000

/-- `const timeSinceLogin = _lastAuthTime ? Date.now() - _lastAuthTime :
Infinity`.  `0` is falsy in JS, so a zero timestamp also yields
`Infinity`; we model `Infinity` as `none`. -/
def timeSinceLogin (lastAuthTime : Option Nat) (now : Nat) : Option Nat :=
  match lastAuthTime with
  | none => none
  | some t => if t = 0 then none else some (now - t)

/-- `timeSinceLogin < GRACE_PERIOD_MS` (`Infinity < c` is false). -/
def isWithinGracePeriod (lastAuthTime : Option Nat) (now : Nat) : Bool :=
  match timeSinceLogin lastAuthTime now with
  | none => false
  | some d => d < GRACE_PERIOD_MS

/-- Embedding of JS `String.prototype.startsWith`. -/
def jsStartsWith (s p : String) : Bool :=
  p.data.isPrefixOf s.data

/-- Observable actions a hook or component issues: the store's `logout()`
and `router.push(url)`. -/
inductive Action
  | logoutAct
  | navigate (url : String)
deriving DecidableEq, Repr

/-- The reactive inputs of one run of the validator's effect: the route,
the store fields it reads, the clock, and the query result
(`data : Option SessionAnswer` is `none` while `data === undefined`). -/
structure ValidatorInput where
  pathname : String
  hasHydrated : Bool
  isAuthenticated : Bool
  lastAuthTime : Option Nat
  now : Nat
  isLoading : Bool
  isFetched : Bool
  data : Option SessionAnswer
deriving DecidableEq, Repr

/-- `data !== undefined && data.user === null`. -/
def settledNoUser (data : Option SessionAnswer) : Bool :=
  match data with
  | none => false
  | some a => a.user.isNone

/-- One run of the `useEffect` body of `useSessionValidator`: skip on auth
routes or before hydration; skip inside the grace period; otherwise, on an
authenticated store with a fetched, non-loading, settled `{ user: null }`
answer, call `logout()` and then push
`/auth?redirect=${pathname}&session_expired=true` (the template literal
does not URI-encode the pathname). -/
def validatorEffect (i : ValidatorInput) : List Action :=
  if jsStartsWith i.pathname "/auth" || !i.hasHydrated then []
  else if isWithinGracePeriod i.lastAuthTime i.now then []
  else if i.isAuthenticated && !i.isLoading && i.isFetched &&
          settledNoUser i.data &&
          !isWithinGracePeriod i.lastAuthTime i.now then
    [Action.logoutAct,
     Action.navigate ("/auth?redirect=" ++ i.pathname ++ "&session_expired=true")]
  else []

/-! ## CSRF token broker (`hooks/use-csrf.ts`)

Module-level mutable state `csrfToken` and `csrfPromise` plus the
event-loop steps: a call to `getCsrfToken()` runs synchronously up to its
first `await`, and the in-flight fetch settles later.  `waiters` counts the
callers currently awaiting the shared promise; `requests` counts fetches
started against `/api/csrf`. -/
structure CsrfState where
  csrfToken : Option String
  inFlight : Bool
  requests : Nat
  waiters : Nat
deriving DecidableEq, Repr

def csrfInit : CsrfState :=
  { csrfToken := none, inFlight := false, requests := 0, waiters := 0 }

/-- What a call to `getCsrfToken()` observes synchronously: a cached token
is returned immediately; otherwise the caller ends up awaiting the (new or
existing) in-flight promise. -/
inductive CsrfCallRes
  | immediate (tok : String)
  | awaiting
deriving DecidableEq, Repr

/-- `getCsrfToken()`: return `csrfToken` if cached; else join `csrfPromise`
if set; else start `fetchCsrfToken()` (one network request), record the
promise, and await it. -/
def csrfCall (s : CsrfState) : CsrfState × CsrfCallRes :=
  match s.csrfToken with
  | some t => (s, .immediate t)
  | none =>
    if s.inFlight then
      ({ s with waiters := s.waiters + 1 }, .awaiting)
    else
      ({ s with inFlight := true, requests := s.requests + 1, waiters := 1 },
       .awaiting)

/-- The in-flight fetch resolves with token `tok`: `fetchCsrfToken` assigns
`csrfToken = data.csrf_token`, the `finally` clears `csrfPromise`, and
every awaiting caller is resumed with the same resolved value. -/
def csrfSettleOk (s : CsrfState) (tok : String) : CsrfState × List String :=
  ({ s with csrfToken := some tok, inFlight := false, waiters := 0 },
   List.replicate s.waiters tok)

/-- The in-flight fetch rejects (network failure or non-2xx): `csrfToken`
is untouched, the `finally` still clears `csrfPromise`, and the awaiting
callers are resumed with the rejection. -/
def csrfSettleErr (s : CsrfState) : CsrfState :=
  { s with inFlight := false, waiters := 0 }

/-- `n` calls to `getCsrfToken()` issued back-to-back on the event loop
(none of the in-flight work settles in between). -/
def csrfCalls : Nat → CsrfState → CsrfState
  | 0, s => s
  | n + 1, s => csrfCalls n (csrfCall s).1

/-! ## `encodeURIComponent` (ECMA-262): unreserved characters are kept,
every other character is percent-encoded per UTF-8 byte. -/

def hexDigit (n : Nat) : Char :=
  if n < 10 then Char.ofNat (48 + n) else Char.ofNat (55 + n)

def percentByte (b : Nat) : String :=
  String.mk ['%', hexDigit (b / 16), hexDigit (b % 16)]

def utf8Bytes (c : Char) : List Nat :=
  let n := c.toNat
  if n < 128 then [n]
  else if n < 2048 then [192 + n / 64, 128 + n % 64]
  else if n < 65536 then
    [224 + n / 4096, 128 + (n / 64) % 64, 128 + n % 64]
  else
    [240 + n / 262144, 128 + (n / 4096) % 64, 128 + (n / 64) % 64,
     128 + n % 64]

def isUriUnreserved (c : Char) : Bool :=
  c.isAlphanum || c = '-' || c = '_' || c = '.' || c = '!' || c = '~' ||
    c = '*' || c = '\'' || c = '(' || c = ')'

def encodeURIComponent (s : String) : String :=
  String.join (s.toList.map (fun c =>
    if isUriUnreserved c then String.singleton c
    else String.join ((utf8Bytes c).map percentByte)))

/-! ## Route guard (`components/auth/auth-guard.tsx`)

The redirect decision the guard's effect takes once its inputs are settled
(store hydrated, loaders finished, session check answered). -/

structure GuardInput where
  isAuthenticated : Bool
  user : Option User
  pathname : String
  allowedRoles : Option (List UserRole)
  requiredScope : Option String
deriving DecidableEq, Repr

/-- `allowedRoles && user && !allowedRoles.includes(user.role)`. -/
def guardRoleFails (g : GuardInput) : Bool :=
  match g.allowedRoles, g.user with
  | some roles, some u => !roles.contains u.role
  | _, _ => false

/-- `requiredScope && !hasScope(requiredScope)`. -/
def guardScopeFails (g : GuardInput) : Bool :=
  match g.requiredScope with
  | some sc => !storeHasScope g.user sc
  | none => false

/-- The settled branch of the guard's `useEffect`: unauthenticated →
`router.push("/auth?redirect=" + encodeURIComponent(pathname))` and
return; failed role check → `router.push("/unauthorized")` and return;
failed scope check → `router.push("/unauthorized")`; else no action. -/
def guardEffect (g : GuardInput) : List Action :=
  if !g.isAuthenticated then
    [Action.navigate ("/auth?redirect=" ++ encodeURIComponent g.pathname)]
  else if guardRoleFails g then
    [Action.navigate "/unauthorized"]
  else if guardScopeFails g then
    [Action.navigate "/unauthorized"]
  else []

/-! ## Live Update Channel (`hooks/use-sse.ts`)

Connection-request construction of the two `useSSE` variants. -/

/-- EventSource variant: `` `${NEXT_PUBLIC_SSE_URL}${endpoint}?token=${encodeURIComponent(token)}` ``. -/
def sseUrlEventSource (base endpoint token : String) : String :=
  base ++ endpoint ++ "?token=" ++ encodeURIComponent token

/-- Fetch variant: `` `${NEXT_PUBLIC_SSE_URL}${endpoint}` `` — the URL does
not mention the token. -/
def sseUrlFetch (base endpoint : String) : String :=
  base ++ endpoint

/-- Fetch variant: `Authorization: Bearer ${token}` request header. -/
def sseFetchAuthHeader (token : String) : String :=
  "Bearer " ++ token

/-! ## Helper lemmas -/

/-- Membership in a scope list coincides with the `includes` test. -/
theorem hasScopeRole_iff_mem (role : UserRole) (scope : String) :
    hasScopeRole role scope = true ↔ scope ∈ ROLE_SCOPES role := by
  unfold hasScopeRole
  exact List.elem_iff

/-- With the fetch still in flight and no cached token, every additional
call joins the same promise: only the waiter count moves. -/
theorem csrfCalls_inFlight (n r w : Nat) :
    csrfCalls n
        { csrfToken := none, inFlight := true, requests := r, waiters := w }
      = { csrfToken := none, inFlight := true, requests := r,
          waiters := w + n } := by
  induction n generalizing w with
  | zero => simp [csrfCalls]
  | succ n ih =>
      simp only [csrfCalls, csrfCall, if_true]
      rw [ih]
      congr 1
      omega

/-- Repeating `logout()` through the persistence layer changes nothing
after the first call. -/
theorem storeLogout_idem (st : PersistStore) :
    storeLogout (storeLogout st) = storeLogout st := by
  simp [storeLogout, persistSet, logout, partialize]

/-- Iterating `logout()` collapses to a single call. -/
theorem iterLogout_succ (n : Nat) (st : PersistStore) :
    iterLogout (n + 1) st = storeLogout st := by
  induction n generalizing st with
  | zero => simp [iterLogout]
  | succ n ih =>
      show iterLogout (n + 1) (storeLogout st) = storeLogout st
      rw [ih, storeLogout_idem]

/-! ## Claim theorems -/

/-- C1: evaluation at the failing input.  The claim says an ambiguous
session-check outcome (network error, non-2xx status) must never clear
the Credential Cache.  In the code, `validateSession` catches a network
error — and maps a non-2xx `/auth/me` status — to the settled denial
shape `{ user: null }`, and the validator hook, given that settled
answer outside the grace period, calls `logout()` and redirects: the
pipeline does clear the cache on an ambiguous failure. -/
theorem C1_ambiguous_backend_failure_clears_credential_cache :
    (validateSession (some "access_token=abc")
        BackendResult.networkError).1 = { user := none } ∧
    (validateSession (some "access_token=abc")
        (BackendResult.httpError 500)).1 = { user := none } ∧
    validatorEffect { pathname := "/dashboard", hasHydrated := true,
                      isAuthenticated := true, lastAuthTime := some 1000,
                      now := 60000, isLoading := false, isFetched := true,
                      data := some (validateSession (some "access_token=abc")
                                      BackendResult.networkError).1 }
      = [Action.logoutAct,
         Action.navigate "/auth?redirect=/dashboard&session_expired=true"] := by
  decide

/-- C2: evaluation at the failing input.  The claim says the persisted
projection of every store state holds only `user`, `isAuthenticated` and
`lastAuthTime` and never token material.  In the code, `partialize`
selects `user`, `token`, `refreshToken`, `isAuthenticated`, `rememberMe`:
after a `setAuth` carrying tokens, the `somnium-auth` entry contains both
tokens and no `lastAuthTime`. -/
theorem C2_persisted_entry_contains_token_material :
    (storeSetAuth { state := initialAuthState, storage := none } demoUser
        (some "acc") (some "ref") true).storage
      = some { user := some demoUser, token := some "acc",
               refreshToken := some "ref", isAuthenticated := true,
               rememberMe := true } ∧
    (partialize (setAuth initialAuthState demoUser (some "acc") (some "ref")
        true)).token = some "acc" := by
  decide

/-- C3: evaluation of `setAuth` on every input.  The claim says
`setAuth(user)` records `lastAuthTime = now`, leaving it non-null
immediately afterwards.  In the code, the single `set` call of `setAuth`
does make `isAuthenticated` true and `user` non-null at once, but the
store declares no `_lastAuthTime` field and `setAuth` writes none:
reads of `_lastAuthTime` after `setAuth` still yield `undefined`
(modelled `none`). -/
theorem C3_setAuth_does_not_record_lastAuthTime (s : AuthState) (u : User)
    (t r : Option String) (m : Bool) :
    (setAuth s u t r m).isAuthenticated = true ∧
    (setAuth s u t r m).user = some u ∧
    (setAuth s u t r m).lastAuthTime = s.lastAuthTime ∧
    (setAuth initialAuthState u t r m).lastAuthTime = none := by
  simp [setAuth, initialAuthState]

/-- C4 counterexample: the claim says `logout()` removes the persisted
storage entry outright.  Starting from an authenticated store and calling
`logout()`, the `somnium-auth` entry is still present (the persist
middleware rewrote it; nothing removed it). -/
theorem C4_logout_keeps_persisted_entry_present :
    (storeLogout (storeSetAuth { state := initialAuthState, storage := none }
        demoUser (some "acc") (some "ref") true)).storage ≠ none := by
  decide

/-- C4 (amended): calling `logout()` any number of times in sequence
leaves `user = null`, `isAuthenticated = false`, and both token fields
null, and leaves the persisted entry rewritten with exactly that cleared
projection — still present, but carrying no authenticated record; the
store has no `lastAuthTime` field for `logout` to touch. -/
theorem C4_logout_idempotent_clear_and_storage_overwrite (n : Nat)
    (st : PersistStore) :
    (iterLogout (n + 1) st).state.user = none ∧
    (iterLogout (n + 1) st).state.isAuthenticated = false ∧
    (iterLogout (n + 1) st).state.token = none ∧
    (iterLogout (n + 1) st).state.refreshToken = none ∧
    (iterLogout (n + 1) st).state.lastAuthTime = st.state.lastAuthTime ∧
    (iterLogout (n + 1) st).storage
      = some { user := none, token := none, refreshToken := none,
               isAuthenticated := false, rememberMe := false } := by
  rw [iterLogout_succ]
  simp [storeLogout, persistSet, logout, partialize]

/-- C5: evaluation at the failing input.  The claim says a `useSSE`
connection never carries the token inside the connection URL, so the URL
is identical across token values.  The EventSource variant builds
`?token=...` into the URL: the URL contains the token and differs between
tokens.  The fetch variant's URL is built from base and endpoint alone and
the token rides in the `Authorization` header. -/
theorem C5_eventsource_url_embeds_token :
    sseUrlEventSource "https://sse.example" "/alerts/stream" "secrettoken123"
      = "https://sse.example/alerts/stream?token=secrettoken123" ∧
    sseUrlEventSource "https://sse.example" "/alerts/stream" "tokA"
      ≠ sseUrlEventSource "https://sse.example" "/alerts/stream" "tokB" ∧
    sseUrlFetch "https://sse.example" "/alerts/stream"
      = "https://sse.example/alerts/stream" ∧
    sseFetchAuthHeader "secrettoken123" = "Bearer secrettoken123" := by
  decide

/-- C6: if the validator's query settles to `{ user: null }` while the
store is authenticated and hydrated, the route is not an auth route, and
the grace window has elapsed, then the effect calls `logout()` and then
issues exactly one navigation, to
`/auth?redirect=<pathname>&session_expired=true`, in that order. -/
theorem C6_explicit_denial_logs_out_then_navigates_once (i : ValidatorInput)
    (hpath : jsStartsWith i.pathname "/auth" = false)
    (hhyd : i.hasHydrated = true)
    (hauth : i.isAuthenticated = true)
    (hgrace : isWithinGracePeriod i.lastAuthTime i.now = false)
    (hload : i.isLoading = false)
    (hfetched : i.isFetched = true)
    (hdata : i.data = some { user := none }) :
    validatorEffect i
      = [Action.logoutAct,
         Action.navigate
           ("/auth?redirect=" ++ i.pathname ++ "&session_expired=true")] := by
  simp [validatorEffect, hpath, hhyd, hauth, hgrace, hload, hfetched, hdata,
        settledNoUser]

/-- C6 witness: the theorem applied at a concrete settled denial. -/
theorem C6_witness :
    validatorEffect { pathname := "/dashboard", hasHydrated := true,
                      isAuthenticated := true, lastAuthTime := some 1000,
                      now := 60000, isLoading := false, isFetched := true,
                      data := some { user := none } }
      = [Action.logoutAct,
         Action.navigate "/auth?redirect=/dashboard&session_expired=true"] :=
  C6_explicit_denial_logs_out_then_navigates_once
    { pathname := "/dashboard", hasHydrated := true, isAuthenticated := true,
      lastAuthTime := some 1000, now := 60000, isLoading := false,
      isFetched := true, data := some { user := none } }
    (by decide) rfl rfl (by decide) rfl rfl rfl

/-- C7: `getCsrfToken` is single-flight.  Any `n + 1` calls issued before
the first fetch settles start exactly one network request and all await
the same promise; on resolution every caller receives the same token and
the in-flight marker is cleared (a following call returns the cached token
immediately); on rejection the marker is also cleared, so a later call
starts a fresh fetch. -/
theorem C7_csrf_single_flight (n : Nat) (tok : String) :
    (csrfCalls (n + 1) csrfInit).requests = 1 ∧
    (csrfCalls (n + 1) csrfInit).inFlight = true ∧
    (csrfCalls (n + 1) csrfInit).waiters = n + 1 ∧
    (csrfSettleOk (csrfCalls (n + 1) csrfInit) tok).2
      = List.replicate (n + 1) tok ∧
    (csrfSettleOk (csrfCalls (n + 1) csrfInit) tok).1.inFlight = false ∧
    (csrfCall (csrfSettleOk (csrfCalls (n + 1) csrfInit) tok).1).2
      = CsrfCallRes.immediate tok ∧
    (csrfSettleErr (csrfCalls (n + 1) csrfInit)).inFlight = false ∧
    (csrfCall (csrfSettleErr (csrfCalls (n + 1) csrfInit))).1.requests = 2 := by
  have h : csrfCalls (n + 1) csrfInit
      = { csrfToken := none, inFlight := true, requests := 1,
          waiters := 1 + n } := by
    show csrfCalls n (csrfCall csrfInit).1
      = { csrfToken := none, inFlight := true, requests := 1, waiters := 1 + n }
    have : (csrfCall csrfInit).1
        = { csrfToken := none, inFlight := true, requests := 1,
            waiters := 1 } := by decide
    rw [this, csrfCalls_inFlight]
  rw [h]
  refine ⟨rfl, rfl, by simp [Nat.add_comm], ?_, rfl, rfl, rfl, rfl⟩
  simp [csrfSettleOk, Nat.add_comm]

/-- C8: the store's `hasScope` agrees with the static `ROLE_SCOPES` table
for the current user's role, declared scopes and undeclared scopes alike
(nurse has `write:vitals` but not `manage:users`), and returns false when
no user is set. -/
theorem C8_hasScope_matches_role_table (s : AuthState) (u : User)
    (scope : String) :
    (s.user = some u →
      (s.hasScope scope = true ↔ scope ∈ ROLE_SCOPES u.role)) ∧
    (s.user = none → s.hasScope scope = false) ∧
    (setAuth initialAuthState demoUser none none false).hasScope
        "write:vitals" = true ∧
    (setAuth initialAuthState demoUser none none false).hasScope
        "manage:users" = false := by
  refine ⟨?_, ?_, by decide, by decide⟩
  · intro hu
    simp only [AuthState.hasScope, storeHasScope, hu]
    exact hasScopeRole_iff_mem u.role scope
  · intro hu
    simp only [AuthState.hasScope, storeHasScope, hu]

/-- C8 witness: the theorem applied to a nurse store and to the
unauthenticated initial store. -/
theorem C8_witness :
    ((setAuth initialAuthState demoUser none none false).hasScope
        "write:vitals" = true ↔
      "write:vitals" ∈ ROLE_SCOPES demoUser.role) ∧
    initialAuthState.hasScope "manage:users" = false :=
  ⟨(C8_hasScope_matches_role_table
      (setAuth initialAuthState demoUser none none false) demoUser
      "write:vitals").1 rfl,
   (C8_hasScope_matches_role_table initialAuthState demoUser
      "manage:users").2.1 rfl⟩

/-- C9: once the guard's inputs are settled, an unauthenticated user is
redirected to the login route carrying the attempted path as the
`redirect` parameter, while an authenticated user failing the
`allowedRoles` or `requiredScope` requirement is redirected to
`/unauthorized`, never to the login route; in particular an authenticated
nurse on an admin-only route goes to `/unauthorized`. -/
theorem C9_guard_redirect_targets (g : GuardInput) :
    (g.isAuthenticated = false →
      guardEffect g
        = [Action.navigate
            ("/auth?redirect=" ++ encodeURIComponent g.pathname)]) ∧
    (g.isAuthenticated = true →
      (guardRoleFails g || guardScopeFails g) = true →
      guardEffect g = [Action.navigate "/unauthorized"]) ∧
    guardEffect { isAuthenticated := true, user := some demoUser,
                  pathname := "/dashboard/admin",
                  allowedRoles := some [UserRole.admin],
                  requiredScope := none }
      = [Action.navigate "/unauthorized"] := by
  refine ⟨?_, ?_, by decide⟩
  · intro h
    simp [guardEffect, h]
  · intro hauth hfail
    rcases Bool.or_eq_true_iff.mp hfail with hrole | hscope
    · simp [guardEffect, hauth, hrole]
    · simp [guardEffect, hauth, hscope]

/-- C9 witness: the theorem applied to an unauthenticated navigation and
to an authenticated nurse hitting an admin-only role requirement. -/
theorem C9_witness :
    guardEffect { isAuthenticated := false, user := none,
                  pathname := "/dashboard", allowedRoles := none,
                  requiredScope := none }
      = [Action.navigate
          ("/auth?redirect=" ++ encodeURIComponent "/dashboard")] ∧
    guardEffect { isAuthenticated := true, user := some demoUser,
                  pathname := "/dashboard/admin",
                  allowedRoles := some [UserRole.admin],
                  requiredScope := none }
      = [Action.navigate "/unauthorized"] :=
  ⟨(C9_guard_redirect_targets
      { isAuthenticated := false, user := none, pathname := "/dashboard",
        allowedRoles := none, requiredScope := none }).1 rfl,
   (C9_guard_redirect_targets
      { isAuthenticated := true, user := some demoUser,
        pathname := "/dashboard/admin",
        allowedRoles := some [UserRole.admin],
        requiredScope := none }).2.1 rfl (by decide)⟩

/-- C10: a `validateSession` call whose request carries no cookie header
(absent, hence read as the empty string, or literally empty) returns
`{ user: null }` immediately and issues no request to the backend
`/auth/me`, whatever the backend would have answered. -/
theorem C10_no_cookie_short_circuits_to_null (backend : BackendResult) :
    validateSession none backend = ({ user := none }, 0) ∧
    validateSession (some "") backend = ({ user := none }, 0) := by
  simp [validateSession]

end Somnium
